import Mathlib

/-!
Shallow embedding of the mail_analyzer threat-scoring engine.

Scores are modelled as exact rationals (`ℚ`); Python strings as `String`;
Python lists as `List`; Python `dict.get` defaults as `Option` fields with
`getD` at the access sites, mirroring the source.  External, data-dependent
machinery that the source delegates to libraries (the `re` regex engine,
`urllib.parse.urlparse`, scikit-learn models, the TF-IDF vectorizer and the
cosine-distance computation inside DBSCAN) is modelled by an oracle record
`Ext`: every theorem quantifies over all oracle behaviours, so nothing proved
depends on a particular choice.
-/

namespace MailAnalyzer

/-! ### Python primitive helpers -/

/-- ASCII lower-casing of one character, as `str.lower` acts on the ASCII
range (every string constant in the configuration is already lower case). -/
def pyLowerChar (c : Char) : Char :=
  if 'A' ≤ c ∧ c ≤ 'Z' then Char.ofNat (c.toNat + 32) else c

/-- Models Python `str.lower()`. -/
def pyLower (s : String) : String := ⟨s.data.map pyLowerChar⟩

/-- Models the Python substring test `needle in hay`. -/
def strContainsSub (hay needle : String) : Bool :=
  hay.data.tails.any (fun t => needle.data.isPrefixOf t)

instance decSuffixChar (l₁ l₂ : List Char) : Decidable (l₁ <:+ l₂) :=
  decidable_of_iff _ List.suffix_iff_eq_drop.symm

/-- Models Python `s.endswith(suf)`. -/
def endsWithB (s suf : String) : Bool := decide (suf.data <:+ s.data)

/-- Models Python `s.strip()`. -/
def pyStrip (s : String) : String :=
  ⟨((s.data.dropWhile (·.isWhitespace)).reverse.dropWhile (·.isWhitespace)).reverse⟩

/-- Models Python `int(q)` (truncation toward zero); `Int.div` on the
numerator and denominator of a reduced rational truncates toward zero. -/
def pyInt (q : ℚ) : ℤ := Int.tdiv q.num q.den

/-- Round `N / D` (with `D > 0`) to the nearest natural, ties to even. -/
def rnEven (N D : ℕ) : ℕ :=
  if 2 * (N % D) < D then N / D
  else if D < 2 * (N % D) then N / D + 1
  else if N / D % 2 = 0 then N / D else N / D + 1

/-- `⌊log2 n⌋` on positives, by structural recursion on a fuel bound (the
core `Nat.log2` is well-founded recursion, which the kernel cannot unfold). -/
def log2fuel : ℕ → ℕ → ℕ
  | 0, _ => 0
  | fuel + 1, n => if n ≤ 1 then 0 else log2fuel fuel (n / 2) + 1

def natLog2 (n : ℕ) : ℕ := log2fuel n n

/-- `⌊log2 (n / d)⌋` for `n, d ≥ 1`. -/
def floatExp (n d : ℕ) : ℤ :=
  if d * 2 ^ natLog2 n ≤ n * 2 ^ natLog2 d then
    (natLog2 n : ℤ) - natLog2 d
  else (natLog2 n : ℤ) - natLog2 d - 1

/-- The IEEE-754 binary64 value nearest to `n / d` (`n, d ≥ 1`): a 53-bit
significand rounded to nearest, ties to even.  Built with `mkRat` and
integer arithmetic so that the kernel can evaluate it. -/
def fl64pos (n d : ℕ) : ℚ :=
  let s := 52 - floatExp n d
  if 0 ≤ s then
    mkRat (rnEven (n * 2 ^ s.toNat) d) (2 ^ s.toNat)
  else
    ((rnEven n (d * 2 ^ (-s).toNat) * 2 ^ (-s).toNat : ℕ) : ℚ)

/-- Correctly rounded IEEE-754 binary64 representation of a rational
(round to nearest, ties to even; the normal range — no subnormal or
overflow handling, which the values arising here never reach). -/
def fl64 (q : ℚ) : ℚ :=
  if q.num = 0 then 0
  else if q.num < 0 then -fl64pos (-q.num).toNat q.den
  else fl64pos q.num.toNat q.den

/-- The exact rational quotient, as a kernel-computable `mkRat`. -/
def qdiv (a b : ℚ) : ℚ :=
  if 0 ≤ b.num then mkRat (a.num * b.den) (a.den * b.num.toNat)
  else mkRat (-(a.num * b.den)) (a.den * (-b.num).toNat)

/-- The exact rational product, as a kernel-computable `mkRat`. -/
def qmul (a b : ℚ) : ℚ := mkRat (a.num * b.num) (a.den * b.den)

/-- Python float (true) division: exact quotient, rounded once. -/
def float_div (a b : ℚ) : ℚ := fl64 (qdiv a b)

/-- Python float multiplication: exact product, rounded once. -/
def float_mul (a b : ℚ) : ℚ := fl64 (qmul a b)

/-- Models Python `round(q)` on a rational value: round half to even. -/
def pyRound (q : ℚ) : ℤ :=
  if q - ⌊q⌋ < 1/2 then ⌊q⌋
  else if 1/2 < q - ⌊q⌋ then ⌊q⌋ + 1
  else if Even ⌊q⌋ then ⌊q⌋ else ⌊q⌋ + 1

/-- Models Python `round(q, 2)`. -/
def round2 (q : ℚ) : ℚ := (pyRound (q * 100) : ℚ) / 100

/-- Models Python `set.update`: add the members of `xs` that are not yet
present, keeping one occurrence of each element. -/
def setUnion (s xs : List String) : List String :=
  xs.foldl (fun acc u => if u ∈ acc then acc else acc ++ [u]) s

/-- Models the Python `repr` of a list of strings, as used by
`str(email_data.get('attachments', []))` in `_determine_threat_type`. -/
def pyReprList (l : List String) : String :=
  "[" ++ String.intercalate ", " (l.map (fun s => "'" ++ s ++ "'")) ++ "]"

/-- Models `os.path.splitext(att)[1]` for plain file names: the suffix from
the last dot, except that a name whose only dots are leading has no
extension. -/
def splitextExt (s : String) : String :=
  let parts := s.splitOn "."
  if parts.length ≤ 1 then ""
  else if parts.dropLast.all (· = "") then ""
  else "." ++ parts.getLastD ""

/-! ### config.settings -/

def SUSPICIOUS_EXTENSIONS_high_risk : List String :=
  [".exe", ".bat", ".cmd", ".scr", ".js", ".vbs", ".ps1", ".msi", ".reg"]

def SUSPICIOUS_EXTENSIONS_medium_risk : List String :=
  [".zip", ".rar", ".7z", ".iso", ".jar", ".msc"]

def SUSPICIOUS_EXTENSIONS_low_risk : List String :=
  [".pdf", ".doc", ".docx", ".xls", ".xlsx"]

def SUSPICIOUS_KEYWORDS_high_risk : List String :=
  ["password", "passwort", "konto", "account", "bank", "verify", "verifizieren",
   "urgent", "dringend", "immediate", "sofort", "lawsuit", "klage",
   "inheritance", "erbe", "winner", "gewinner", "bitcoin", "wallet"]

def SUSPICIOUS_KEYWORDS_medium_risk : List String :=
  ["update", "aktualisierung", "security", "sicherheit", "support",
   "invoice", "rechnung", "payment", "zahlung", "überweisen",
   "subscription", "abonnement", "trial", "testversion"]

def SUSPICIOUS_KEYWORDS_low_risk : List String :=
  ["newsletter", "angebot", "offer", "sale", "rabatt",
   "confirmation", "bestätigung", "reminder", "erinnerung"]

def SUSPICIOUS_TLD : List String :=
  [".xyz", ".top", ".work", ".date", ".loan", ".agency", ".guru",
   ".win", ".pro", ".stream", ".gdn", ".bid", ".click"]

def W_sender_suspicious_domain : ℚ := 2
def W_sender_spoofed_display_name : ℚ := 5/2
def W_subject_high_risk_keyword : ℚ := 2
def W_subject_medium_risk_keyword : ℚ := 3/2
def W_subject_low_risk_keyword : ℚ := 1/2
def W_body_high_risk_keyword : ℚ := 3/2
def W_body_medium_risk_keyword : ℚ := 1
def W_body_low_risk_keyword : ℚ := 3/10
def W_body_suspicious_url : ℚ := 2
def W_body_multiple_urls : ℚ := 1
def W_body_urgent_language : ℚ := 3/2
def W_attachments_high_risk_extension : ℚ := 3
def W_attachments_medium_risk_extension : ℚ := 2
def W_attachments_low_risk_extension : ℚ := 1/2
def W_attachments_multiple_attachments : ℚ := 1

/-- `THREAT_LEVELS` from config.settings, as a lookup on the level name. -/
def THREAT_LEVELS (level : String) : String :=
  if level = "LOW" then "🟢"
  else if level = "MEDIUM" then "🟡"
  else "🔴"

/-! ### analyzer.utils.get_threat_level -/

inductive ThreatLevel
  | LOW
  | MEDIUM
  | HIGH
deriving DecidableEq

def ThreatLevel.rank : ThreatLevel → ℕ
  | .LOW => 0
  | .MEDIUM => 1
  | .HIGH => 2

def ThreatLevel.text : ThreatLevel → String
  | .LOW => "LOW"
  | .MEDIUM => "MEDIUM"
  | .HIGH => "HIGH"

/-- The branch cascade of `get_threat_level` (the value of its local
variable `level`). -/
def threatLevel (score : ℚ) : ThreatLevel :=
  if 7 ≤ score then .HIGH
  else if 4 ≤ score then .MEDIUM
  else .LOW

/-- `analyzer.utils.get_threat_level`. -/
def get_threat_level (score : ℚ) (use_icon : Bool) : String :=
  let level := (threatLevel score).text
  if use_icon then THREAT_LEVELS level else level

/-! ### Data model -/

/-- A message record (`email_data` dict).  Fields the orchestrator reads with
a default are plain; fields that may be absent (`score`, `analyzed_urls`,
`indicators` — consulted only by the clustering feature extractor with
`in`/`.get` guards) are `Option`. -/
structure Email where
  sender : String := ""
  subject : String := ""
  body : String := ""
  attachments : List String := []
  score : Option ℚ := none
  analyzed_urls : Option (List String) := none
  indicators : Option (List String) := none

/-- `user_context` dict. -/
structure UserContext where
  department : Option String := none
  role : Option String := none
  clearance_level : Option ℤ := none
  common_contacts : List String := []

/-- The dict returned by `MLAnalyzer.analyze_email` (the orchestrator reads
`ml_score` and `confidence`). -/
structure MLResult where
  ml_score : ℚ := 0
  confidence : ℚ := 0

/-- Oracles for external, data-dependent machinery.  Each field is one
library call the source delegates: theorems quantify over every behaviour. -/
structure Ext where
  /-- `MLAnalyzer.analyze_email` (scikit-learn model behind `joblib`). -/
  mlAnalyze : Email → MLResult := fun _ => {}
  /-- `model.score_samples([features])[0]` of the per-role IsolationForest. -/
  scoreSamples : String → List ℚ → ℚ := fun _ _ => 0
  /-- `re.search(r'<?([\w\.-]+@[\w\.-]+\.\w+)>?', sender)`: the captured
  group, or `none` when the regex does not match. -/
  reSearchEmail : String → Option String := fun _ => none
  /-- `re.findall` for the first entry of `SUSPICIOUS_URL_PATTERNS`. -/
  findall1 : String → List String := fun _ => []
  /-- `re.findall` for the second entry of `SUSPICIOUS_URL_PATTERNS`. -/
  findall2 : String → List String := fun _ => []
  /-- `urlparse(url).netloc`. -/
  netloc : String → String := fun s => s
  /-- Whether `TfidfVectorizer.fit_transform` succeeds on the feature batch
  (it raises, e.g., on an empty vocabulary; the caller catches and returns
  the empty dict). -/
  vectorizeOk : List String → Bool := fun _ => true
  /-- Cosine-distance-within-eps predicate between two members of the
  vectorized batch, as used by DBSCAN(eps=0.3, metric='cosine'). -/
  close : List String → ℕ → ℕ → Bool := fun _ _ _ => false
  /-- `datetime.now().hour`. -/
  nowHour : ℕ := 0

/-! ### analyzer.proactive_defense -/

/-- `ThreatRecord` dataclass; timestamps are rationals (seconds). -/
structure ThreatRecord where
  timestamp : ℚ
  type : String
  score : ℚ
  indicators : List String := []
  target_department : Option String := none
  target_role : Option String := none

/-- One entry of the `emails` argument of `analyze_trends` (a dict read
with `.get` defaults). -/
structure TrendInput where
  timestamp : Option ℚ := none
  type : Option String := none
  score : Option ℚ := none
  indicators : List String := []
  target_department : Option String := none
  target_role : Option String := none

/-- Normalization applied while ingesting one input into the history
(`analyze_trends`, history-update loop). -/
def mkRecord (now : ℚ) (e : TrendInput) : ThreatRecord :=
  { timestamp := e.timestamp.getD now
    type := e.type.getD "unknown"
    score := e.score.getD 0
    indicators := e.indicators
    target_department := e.target_department
    target_role := e.target_role }

/-- One entry of `window_analysis`. -/
structure WindowStats where
  total_threats : ℕ
  avg_severity : ℚ
  type_distribution : List (String × ℕ)

/-- `forecasts` dict. -/
structure Forecasts where
  next_24h : ℤ
  next_week : ℤ
  confidence : ℚ

/-- Return value of `analyze_trends`. -/
structure TrendResult where
  window_short : WindowStats
  window_medium : WindowStats
  window_long : WindowStats
  forecasts : Forecasts
  recommendations : List String

/-- Statistics of one trailing window: records with
`r.timestamp >= now - delta`; `avg_severity` is rounded to two decimals;
the type distribution is a `Counter` in first-occurrence order. -/
def windowStats (hist : List ThreatRecord) (now delta : ℚ) : WindowStats :=
  let recs := hist.filter (fun r => decide (now - delta ≤ r.timestamp))
  let avg : ℚ := if recs.isEmpty then 0 else (recs.map (·.score)).sum / recs.length
  let types := recs.map (·.type)
  { total_threats := recs.length
    avg_severity := round2 avg
    type_distribution := types.dedup.map (fun t => (t, types.count t)) }

/-- Python `max(short_dist, key=short_dist.get)`: the first key of maximal
count in iteration order. -/
def argmaxCount (d : List (String × ℕ)) : Option String :=
  (d.foldl (fun acc p =>
    match acc with
    | none => some p
    | some q => if q.2 < p.2 then some p else acc) none).map (·.1)

def HOURS_24 : ℚ := 86400
def DAYS_7 : ℚ := 7 * 86400
def DAYS_30 : ℚ := 30 * 86400

/-- `ProactiveThreatDefense.analyze_trends`.  The instance state
`self._history` is passed in and the extended history is returned next to
the result dict. -/
def analyze_trends (hist : List ThreatRecord) (emails : List TrendInput)
    (now : ℚ) : List ThreatRecord × TrendResult :=
  let hist' := hist ++ emails.map (mkRecord now)
  let short := windowStats hist' now HOURS_24
  let medium := windowStats hist' now DAYS_7
  let long := windowStats hist' now DAYS_30
  let short_total := short.total_threats
  let medium_total := medium.total_threats
  let predicted_24h : ℤ := short_total
  let predicted_week : ℤ :=
    if medium_total ≠ 0 then
      pyInt (float_mul (float_div (medium_total : ℚ) 7) 7)
    else 0
  let confidence := round2 (min ((hist'.length : ℚ) / 100) (99/100))
  let recs :=
    (match argmaxCount short.type_distribution with
     | some dominant => ["Verstärkte Überwachung für " ++ dominant ++ "-Mails empfohlen"]
     | none => []) ++
    (if 7 < short.avg_severity
     then ["Hohe durchschnittliche Schwere im letzten Tag beobachten"]
     else [])
  (hist',
   { window_short := short
     window_medium := medium
     window_long := long
     forecasts := { next_24h := predicted_24h, next_week := predicted_week
                    confidence := confidence }
     recommendations := recs })

/-! ### analyzer.threat.threat_clustering -/

/-- `characteristics` dict of a cluster pattern. -/
structure Characteristics where
  common_indicators : List String := []
  common_domains : List String := []
  common_attachment_types : List String := []
  common_url_patterns : List String := []

/-- A stored entry of `cluster_history` (loaded from JSON, so the
`characteristics` key may be missing or empty, modelled by `none`). -/
structure StoredPattern where
  characteristics : Option Characteristics := none

/-- A newly reported pattern record. -/
structure NewPattern where
  id : String
  timestamp : String
  characteristics : Characteristics
  avg_threat_score : ℚ
  sample_size : ℕ
  examples : List (String × List String)

/-- Return value of `analyze_email_patterns`; the Python empty dict
(returned for an empty batch or on an exception) is modelled by
`emptyClusterResult`, which behaves the same under every `.get` access the
callers perform. -/
structure ClusterResult where
  clusters : List (ℤ × List Email) := []
  new_patterns : List NewPattern := []
  total_clusters : ℕ := 0
  noise_points : ℕ := 0

def emptyClusterResult : ClusterResult := {}

/-- `_extract_email_features`. -/
def extract_email_features (e : Email) : String :=
  let base := [e.subject, e.body]
  let dom :=
    if strContainsSub e.sender "@"
    then ["domain_" ++ (e.sender.splitOn "@").getD 1 ""]
    else []
  let atts := e.attachments.map (fun att => "attachment_" ++ splitextExt att)
  let urls := (e.analyzed_urls.getD []).map (fun u => "url_" ++ u)
  let inds := e.indicators.getD []
  String.intercalate " " (base ++ dom ++ atts ++ urls ++ inds)

/-- Neighborhood size of point `i` in an `n`-point batch under the
eps-closeness predicate `c` (a point is its own neighbor when `c i i`). -/
def neighborsCount (c : ℕ → ℕ → Bool) (n i : ℕ) : ℕ :=
  ((List.range n).filter (fun j => c i j)).length

/-- DBSCAN core point: at least `min_samples = 3` points within eps. -/
def isCore (c : ℕ → ℕ → Bool) (n i : ℕ) : Bool :=
  3 ≤ neighborsCount c n i

/-- One step of the core-reachability closure: add every core point within
eps of the current set. -/
def expandStep (c : ℕ → ℕ → Bool) (n : ℕ) (s : List ℕ) : List ℕ :=
  (s ++ (List.range n).filter
    (fun j => isCore c n j && s.any (fun k => c k j))).dedup

/-- Iterated closure with fuel. -/
def closureN (c : ℕ → ℕ → Bool) (n : ℕ) : ℕ → List ℕ → List ℕ
  | 0, s => s
  | fuel + 1, s => closureN c n fuel (expandStep c n s)

/-- Canonical cluster representative of a core point: the least index among
the core points density-reachable from it.  sklearn numbers clusters
0,1,2,…; only the partition into clusters and the noise marker `-1` are
observable downstream, so any injective renaming is a faithful model. -/
def canonCluster (c : ℕ → ℕ → Bool) (n i : ℕ) : ℤ :=
  ((closureN c n n [i]).foldl Nat.min i : ℕ)

/-- DBSCAN label of point `i`: noise (`-1`) unless `i` is a core point or
lies within eps of one. -/
def dbscanLabel (c : ℕ → ℕ → Bool) (n i : ℕ) : ℤ :=
  if isCore c n i then canonCluster c n i
  else
    match (List.range n).find? (fun j => isCore c n j && c j i) with
    | some j => canonCluster c n j
    | none => -1

/-- `_find_common_indicators`: elements occurring in at least 50 %
(indicators) or 30 % (domains / attachment types / URLs) of the cluster. -/
def find_common_indicators (emails : List Email) : Characteristics :=
  let all_indicators := emails.flatMap (fun e => e.indicators.getD [])
  let domains := emails.filterMap (fun e =>
    if strContainsSub e.sender "@" then some ((e.sender.splitOn "@").getD 1 "") else none)
  let atts := emails.flatMap (·.attachments)
  let urls := emails.flatMap (fun e => e.analyzed_urls.getD [])
  let m : ℚ := emails.length
  { common_indicators :=
      all_indicators.dedup.filter (fun x => decide (m * (1/2) ≤ (all_indicators.count x : ℚ)))
    common_domains :=
      domains.dedup.filter (fun x => decide (m * (3/10) ≤ (domains.count x : ℚ)))
    common_attachment_types :=
      (atts.dedup.filter (fun x => decide (m * (3/10) ≤ (atts.count x : ℚ)))).map splitextExt
    common_url_patterns :=
      urls.dedup.filter (fun x => decide (m * (3/10) ≤ (urls.count x : ℚ))) }

/-- `_is_known_pattern`: Jaccard similarity of the indicator sets above
70 % against any stored pattern. -/
def is_known_pattern (hist : List StoredPattern) (ch : Characteristics) : Bool :=
  if hist.isEmpty then false
  else hist.any (fun p =>
    match p.characteristics with
    | none => false
    | some k =>
      let ki := k.common_indicators.dedup
      let ni := ch.common_indicators.dedup
      if ki ≠ [] ∧ ni ≠ [] then
        let interLen : ℚ := (ki.filter (· ∈ ni)).length
        let unionLen : ℚ := (ki ++ ni.filter (· ∉ ki)).length
        decide ((7/10 : ℚ) < interLen / unionLen)
      else false)

/-- `_identify_new_patterns`. -/
def identify_new_patterns (hist : List StoredPattern)
    (clusters : List (ℤ × List Email)) (nowStr : String) : List NewPattern :=
  clusters.filterMap (fun cl =>
    let common := find_common_indicators cl.2
    if is_known_pattern hist common then none
    else some
      { id := "pattern_" ++ nowStr ++ "_" ++ toString cl.1
        timestamp := nowStr
        characteristics := common
        avg_threat_score := (cl.2.map (fun e => e.score.getD 0)).sum / cl.2.length
        sample_size := cl.2.length
        examples := (cl.2.take 3).map (fun e => (e.subject, e.indicators.getD [])) })

/-- `_update_cluster_history`: append, then keep the most recent 1000. -/
def update_cluster_history (hist : List StoredPattern)
    (new_patterns : List NewPattern) : List StoredPattern :=
  let h := hist ++ new_patterns.map (fun p => { characteristics := some p.characteristics })
  if 1000 < h.length then h.drop (h.length - 1000) else h

/-- `ThreatClusterAnalyzer.analyze_email_patterns`.  The instance state
`self.cluster_history` is passed in and returned updated. -/
def analyze_email_patterns (ext : Ext) (hist : List StoredPattern)
    (new_emails : List Email) (nowStr : String) : List StoredPattern × ClusterResult :=
  if new_emails.isEmpty then (hist, emptyClusterResult)
  else
    let feats := new_emails.map extract_email_features
    if ext.vectorizeOk feats then
      let n := new_emails.length
      let c := ext.close feats
      let labels := (List.range n).map (dbscanLabel c n)
      let ids := (labels.filter (fun l => l != -1)).dedup
      let clusters := ids.map (fun id =>
        (id, (new_emails.zip labels).filterMap
          (fun p => if p.2 == id then some p.1 else none)))
      let new_patterns := identify_new_patterns hist clusters nowStr
      (update_cluster_history hist new_patterns,
       { clusters := clusters
         new_patterns := new_patterns
         total_clusters := clusters.length
         noise_points := labels.count (-1) })
    else
      (hist, emptyClusterResult)

/-! ### analyzer.context_analyzer -/

def SENDER_MATCH_WEIGHT : ℚ := 3/10
def SUBJECT_MATCH_WEIGHT : ℚ := 3/10
def MAX_CLEARANCE_BONUS : ℚ := 2/5

/-- One record of `org_context["communication_patterns"]`.  `department` is
read with `.get` (optional); `role` and `sender` are indexed directly. -/
structure CommPattern where
  department : Option String := none
  role : String
  sender : String
  typical_subjects : List String := []
  typical_times : List String := []

/-- Instance state of `ContextAwareAnalyzer`: the organization context and
the set of roles for which a model exists (`self.role_models` keys). -/
structure CtxState where
  patterns : List CommPattern := []
  roleModels : List String := []

/-- Return value of `analyze_with_context`. -/
structure ContextResult where
  context_score : ℚ
  context_factors : List String
  role_specific_threats : List String
  suggested_actions : List String

/-- `_extract_role_features`. -/
def extract_role_features (ext : Ext) (e : Email) (uc : UserContext) : List ℚ :=
  [(ext.nowHour : ℚ) / 24,
   if e.sender ∈ uc.common_contacts then 1 else 0,
   (uc.clearance_level.getD 1 : ℚ) / 5,
   if e.attachments.isEmpty then 0 else 1]

/-- `_analyze_role_specific`: 0 when the role is falsy or has no model,
otherwise `(score_samples + 1) / 2`. -/
def analyze_role_specific (ext : Ext) (ctx : CtxState) (e : Email)
    (uc : UserContext) : ℚ :=
  match uc.role with
  | none => 0
  | some role =>
    if role = "" then 0
    else if role ∈ ctx.roleModels then
      (ext.scoreSamples role (extract_role_features ext e uc) + 1) / 2
    else 0

/-- `_get_department_patterns`. -/
def get_department_patterns (ctx : CtxState) (department : String) : List CommPattern :=
  ctx.patterns.filter (fun p => p.department == some department)

/-- `_analyze_department_specific`. -/
def analyze_department_specific (ctx : CtxState) (e : Email)
    (uc : UserContext) : ℚ :=
  match uc.department with
  | none => 0
  | some department =>
    if department = "" then 0
    else
      let dept_patterns := get_department_patterns ctx department
      if dept_patterns.isEmpty then 0
      else
        let sender_match := dept_patterns.any (fun p => p.sender == e.sender)
        let s1 : ℚ := if sender_match then SENDER_MATCH_WEIGHT else 0
        let subject := pyLower e.subject
        let subject_match := dept_patterns.any (fun p =>
          p.typical_subjects.any (fun s => strContainsSub subject (pyLower s)))
        let s2 : ℚ := if subject_match then SUBJECT_MATCH_WEIGHT else 0
        let clearance : ℚ := uc.clearance_level.getD 1
        s1 + s2 + min (clearance / 10) MAX_CLEARANCE_BONUS

/-- `_analyze_contact_patterns`. -/
def analyze_contact_patterns (e : Email) (uc : UserContext) : ℚ :=
  let common_contacts := uc.common_contacts.dedup
  if common_contacts.isEmpty ∨ e.sender = "" then 0
  else if e.sender ∈ common_contacts then 8/10
  else
    let sender_domain :=
      if strContainsSub e.sender "@" then (e.sender.splitOn "@").getD 1 "" else ""
    if sender_domain ≠ "" ∧ common_contacts.any (fun contact =>
        strContainsSub contact "@" && ((contact.splitOn "@").getD 1 "" == sender_domain))
    then 5/10
    else 2/10

/-- `_combine_scores`: fixed weights 0.4 / 0.3 / 0.3, clamped to [0, 1]. -/
def combine_scores (role_score dept_score contact_score : ℚ) : ℚ :=
  let combined := role_score * (4/10) + dept_score * (3/10) + contact_score * (3/10)
  min 1 (max 0 combined)

/-- `int(t.split(':')[0])`; the source would raise on a malformed entry,
here malformed hours parse to 0. -/
def parseHour (t : String) : ℕ :=
  (((t.splitOn ":").headD "").toNat?).getD 0

/-- `_is_contextual_anomaly`. -/
def is_contextual_anomaly (ext : Ext) (ctx : CtxState) (e : Email)
    (uc : UserContext) : Bool :=
  let role_patterns := ctx.patterns.filter (fun p => (some p.role : Option String) == uc.role)
  if role_patterns.isEmpty then false
  else
    let typical_hours := (role_patterns.flatMap (fun p => p.typical_times.map parseHour)).dedup
    let a1 := !typical_hours.isEmpty && !(typical_hours.contains ext.nowHour)
    let typical_senders := (role_patterns.map (·.sender)).dedup
    let a2 := !typical_senders.isEmpty && !(typical_senders.contains e.sender)
    a1 || a2

/-- The role→(keyword, threat) table of `_get_role_specific_threats`. -/
def role_threat_table : List (String × List (String × String)) :=
  [("finance",
    [("bank", "Möglicher Banking-Trojaner"),
     ("rechnung", "Gefälschte Rechnung"),
     ("zahlung", "Gefälschte Zahlungsaufforderung")]),
   ("hr",
    [("bewerbung", "Gefälschte Bewerbung"),
     ("lebenslauf", "Manipulierter Lebenslauf"),
     ("vertrag", "Gefälschter Arbeitsvertrag")]),
   ("it",
    [("admin", "Gefälschte Admin-Anfrage"),
     ("passwort", "Passwort-Phishing"),
     ("zugang", "Unbefugter Zugriffsversuch")])]

/-- `_get_role_specific_threats`. -/
def get_role_specific_threats (e : Email) (uc : UserContext) : List String :=
  let role := pyLower (uc.role.getD "")
  match role_threat_table.find? (fun p => p.1 == role) with
  | none => []
  | some entry =>
    let content := pyLower (e.subject ++ " " ++ e.body)
    entry.2.filterMap (fun kw =>
      if strContainsSub content kw.1 then some kw.2 else none)

/-- `_generate_actions`. -/
def generate_actions (context_score : ℚ) (uc : UserContext) : List String :=
  let clearance := uc.clearance_level.getD 1
  if context_score < 3/10 then
    ["Sofort IT-Sicherheit informieren", "E-Mail nicht öffnen oder beantworten"]
  else if context_score < 6/10 then
    if 4 ≤ clearance then ["Eigenständige Prüfung durch erfahrenen Mitarbeiter"]
    else ["Vorgesetzten zur Prüfung vorlegen"]
  else ["Normale Vorsichtsmaßnahmen beachten"]

/-- `ContextAwareAnalyzer.analyze_with_context` (happy path; each sub-score
already carries its own guarded fallbacks). -/
def analyze_with_context (ext : Ext) (ctx : CtxState) (e : Email)
    (uc : UserContext) : ContextResult :=
  let role_score := analyze_role_specific ext ctx e uc
  let dept_score := analyze_department_specific ctx e uc
  let contact_score := analyze_contact_patterns e uc
  let context_score := combine_scores role_score dept_score contact_score
  let context_factors :=
    if is_contextual_anomaly ext ctx e uc then
      ["Ungewöhnliches Kommunikationsmuster für diese Rolle/Abteilung"]
    else []
  { context_score := context_score
    context_factors := context_factors
    role_specific_threats := get_role_specific_threats e uc
    suggested_actions := generate_actions context_score uc }

/-! ### analyzer.threat.threat_analyzer -/

/-- The per-call mutable fields of `ThreatAnalyzer`. -/
structure AnalyzerState where
  threat_score : ℚ := 0
  threat_indicators : List String := []
  urls_found : List String := []

/-- Lines 38-40 of `analyze_email`: score reset to 0.0, indicator list
reset to `[]`, URL set cleared. -/
def resetState (_s : AnalyzerState) : AnalyzerState :=
  { threat_score := 0, threat_indicators := [], urls_found := [] }

/-- `_check_sender`. -/
def check_sender (ext : Ext) (sender : String) (ind : List String) :
    ℚ × List String :=
  if sender = "" then
    (W_sender_suspicious_domain, ind ++ ["Fehlender Absender"])
  else
    match ext.reSearchEmail sender with
    | none => (W_sender_suspicious_domain, ind ++ ["Ungültiges E-Mail-Format"])
    | some m =>
      let email := pyLower m
      let domain := (email.splitOn "@").getD 1 ""
      let tldHit := SUSPICIOUS_TLD.any (fun tld => strContainsSub domain tld)
      let s1 : ℚ := if tldHit then W_sender_suspicious_domain else 0
      let ind1 := ind ++ (if tldHit then ["Verdächtige Domain-Endung: " ++ domain] else [])
      let display_name :=
        if strContainsSub sender "<" then pyStrip ((sender.splitOn "<").headD "") else ""
      let spoofHit := display_name ≠ "" ∧
        SUSPICIOUS_KEYWORDS_high_risk.any (fun kw => strContainsSub (pyLower display_name) kw)
      let s2 : ℚ := if spoofHit then W_sender_spoofed_display_name else 0
      let ind2 := ind1 ++ (if spoofHit then ["Möglicherweise gefälschter Anzeigename"] else [])
      (s1 + s2, ind2)

/-- One keyword-tier scan: for each matching keyword append one indicator
and add the tier weight (no early exit). -/
def keywordScan (txt : String) (kws : List String) (w : ℚ) (label : String)
    (acc : ℚ × List String) : ℚ × List String :=
  kws.foldl (fun acc kw =>
    if strContainsSub txt kw then (acc.1 + w, acc.2 ++ [label ++ kw]) else acc) acc

/-- `_check_subject`. -/
def check_subject (subject : String) (ind : List String) : ℚ × List String :=
  if subject = "" then (0, ind)
  else
    let subject_lower := pyLower subject
    let a1 := keywordScan subject_lower SUSPICIOUS_KEYWORDS_high_risk
      W_subject_high_risk_keyword "Hochrisiko-Schlüsselwort im Betreff: " (0, ind)
    let a2 := keywordScan subject_lower SUSPICIOUS_KEYWORDS_medium_risk
      W_subject_medium_risk_keyword "Mittleres Risiko-Schlüsselwort im Betreff: " a1
    keywordScan subject_lower SUSPICIOUS_KEYWORDS_low_risk
      W_subject_low_risk_keyword "Niedrigrisiko-Schlüsselwort im Betreff: " a2

/-- `_extract_urls`: both regexes, duplicates removed (`list(set(..))`,
modelled in first-occurrence order). -/
def extract_urls (ext : Ext) (text : String) : List String :=
  (ext.findall1 text ++ ext.findall2 text).dedup

/-- `_analyze_urls`: updates the URL set, flags more than three URLs, and
flags each URL whose parsed host contains a suspicious TLD. -/
def analyze_urls (ext : Ext) (urls : List String) (ind found : List String) :
    ℚ × List String × List String :=
  let found' := setUnion found urls
  let many := 3 < urls.length
  let s0 : ℚ := if many then W_body_multiple_urls else 0
  let ind0 := ind ++ (if many then ["Viele URLs gefunden (" ++ toString urls.length ++ ")"] else [])
  let res := urls.foldl (fun (acc : ℚ × List String) url =>
    let withScheme := if strContainsSub url "://" then url else "http://" ++ url
    let domain := pyLower (ext.netloc withScheme)
    if SUSPICIOUS_TLD.any (fun tld => strContainsSub domain tld) then
      (acc.1 + W_body_suspicious_url, acc.2 ++ ["Verdächtige URL-Domain: " ++ domain])
    else acc) (s0, ind0)
  (res.1, res.2, found')

/-- `_check_body`. -/
def check_body (ext : Ext) (body : String) (ind found : List String) :
    ℚ × List String × List String :=
  if body = "" then (0, ind, found)
  else
    let body_lower := pyLower body
    let a1 := keywordScan body_lower SUSPICIOUS_KEYWORDS_high_risk
      W_body_high_risk_keyword "High Risk-Schlüsselwort im Text: " (0, ind)
    let a2 := keywordScan body_lower SUSPICIOUS_KEYWORDS_medium_risk
      W_body_medium_risk_keyword "Medium Risk-Schlüsselwort im Text: " a1
    let a3 := keywordScan body_lower SUSPICIOUS_KEYWORDS_low_risk
      W_body_low_risk_keyword "Low Risk-Schlüsselwort im Text: " a2
    let urls := extract_urls ext body
    let b :=
      if urls.isEmpty then (0, a3.2, found)
      else analyze_urls ext urls a3.2 found
    let urgency := ["sofort", "dringend", "eilig", "wichtig", "warnung", "jetzt"]
    let urgHit := urgency.any (fun u => strContainsSub body_lower u)
    let s3 : ℚ := if urgHit then W_body_urgent_language else 0
    let ind3 := b.2.1 ++ (if urgHit then ["Dringlichkeitssprache im Text"] else [])
    (a3.1 + b.1 + s3, ind3, b.2.2)

/-- Whether a (lower-cased) attachment name ends with some extension of a
tier. -/
def tierMatches (tier : List String) (att : String) : Bool :=
  tier.any (fun e => endsWithB (pyLower att) e)

/-- Body of the per-attachment loop of `_check_attachments`: three tier
scans, each adding its weight at most once (the `break`). -/
def attStep (acc : ℚ × List String) (att : String) : ℚ × List String :=
  let acc1 :=
    if tierMatches SUSPICIOUS_EXTENSIONS_high_risk att then
      (acc.1 + W_attachments_high_risk_extension, acc.2 ++ ["Hochrisiko-Anhang: " ++ att])
    else acc
  let acc2 :=
    if tierMatches SUSPICIOUS_EXTENSIONS_medium_risk att then
      (acc1.1 + W_attachments_medium_risk_extension, acc1.2 ++ ["Mittleres Risiko-Anhang: " ++ att])
    else acc1
  if tierMatches SUSPICIOUS_EXTENSIONS_low_risk att then
    (acc2.1 + W_attachments_low_risk_extension, acc2.2 ++ ["Niedrigrisiko-Anhang: " ++ att])
  else acc2

/-- `_check_attachments`. -/
def check_attachments (attachments : List String) (ind : List String) :
    ℚ × List String :=
  if attachments.isEmpty then (0, ind)
  else
    let multi := 1 < attachments.length
    let s0 : ℚ := if multi then W_attachments_multiple_attachments else 0
    let ind0 := ind ++
      (if multi then ["Mehrere Anhänge (" ++ toString attachments.length ++ ")"] else [])
    attachments.foldl attStep (s0, ind0)

/-- `_determine_threat_type`. -/
def determine_threat_type (e : Email) : String :=
  if SUSPICIOUS_EXTENSIONS_high_risk.any
      (fun ex => strContainsSub (pyReprList e.attachments) ex) then "malware"
  else if ["bank", "konto", "password", "anmelden"].any
      (fun kw => strContainsSub (pyLower e.body) kw) then "phishing"
  else if ["gewinn", "prize", "lottery"].any
      (fun kw => strContainsSub (pyLower e.subject) kw) then "scam"
  else "suspicious"

/-- The four rule-based sub-checks run in sequence from a given per-call
state (lines 43-46 of `analyze_email`): the four scores, the indicator
list, and the URL set. -/
def ruleBasedPass (ext : Ext) (e : Email) (st : AnalyzerState) :
    (ℚ × ℚ × ℚ × ℚ) × List String × List String :=
  let r1 := check_sender ext e.sender st.threat_indicators
  let r2 := check_subject e.subject r1.2
  let r3 := check_body ext e.body r2.2 st.urls_found
  let r4 := check_attachments e.attachments r3.2.1
  ((r1.1, r2.1, r3.1, r4.1), r4.2, r3.2.2)

/-- The verdict dict returned by `analyze_email`. -/
structure Verdict where
  score : ℚ
  level : String
  indicators : List String
  analyzed_urls : List String
  ml_confidence : ℚ
  context_analysis : Option ContextResult
  cluster_analysis : ClusterResult
  trend_analysis : TrendResult

/-- `ThreatAnalyzer.analyze_email`.  Component instance states (`ctx`,
`cluHist`, `trendHist`, the per-call state `st`) are passed explicitly;
`now` is the trend-engine clock and `nowStr` the pattern-id timestamp
string. -/
def analyze_email (ext : Ext) (ctx : CtxState) (cluHist : List StoredPattern)
    (trendHist : List ThreatRecord) (now : ℚ) (nowStr : String)
    (st : AnalyzerState) (email_data : Email) (user_context : Option UserContext) :
    Verdict :=
  let rp := ruleBasedPass ext email_data (resetState st)
  let sender_score := rp.1.1
  let subject_score := rp.1.2.1
  let body_score := rp.1.2.2.1
  let attachment_score := rp.1.2.2.2
  let ml_result := ext.mlAnalyze email_data
  let ml_score := ml_result.ml_score
  let ml_confidence := ml_result.confidence
  let context_result :=
    match user_context with
    | some uc => some (analyze_with_context ext ctx email_data uc)
    | none => none
  let context_score :=
    match context_result with
    | some r => r.context_score
    | none => 0
  let ind1 :=
    match context_result with
    | some r => rp.2.1 ++ r.role_specific_threats
    | none => rp.2.1
  let cluster_result := (analyze_email_patterns ext cluHist [email_data] nowStr).2
  let cluster_new := !cluster_result.new_patterns.isEmpty
  let ind2 := if cluster_new then ind1 ++ ["Neues Bedrohungsmuster erkannt"] else ind1
  let cluster_score : ℚ := if cluster_new then 2 else 0
  let rule_avg := (sender_score + subject_score + body_score + attachment_score) / 4
  let proactive_result :=
    (analyze_trends trendHist
      [{ type := some (determine_threat_type email_data)
         score := some rule_avg
         indicators := ind2
         target_department := user_context.bind (·.department)
         target_role := user_context.bind (·.role) }] now).2
  let w_ml : ℚ := if 7/10 < ml_confidence then 2/10 else 1/10
  let w_ctx : ℚ := if user_context.isSome then 2/10 else 0
  let wsum : ℚ := 4/10 + w_ml + w_ctx + 1/10 + 1/10
  let threat_score0 :=
    (rule_avg * (4/10) + ml_score * w_ml + context_score * w_ctx +
      cluster_score * (1/10)) / wsum
  let threat_score := min 10 (threat_score0 * 10)
  let ind3 := ind2 ++ proactive_result.recommendations
  { score := round2 threat_score
    level := get_threat_level threat_score true
    indicators := ind3
    analyzed_urls := rp.2.2
    ml_confidence := ml_confidence
    context_analysis := context_result
    cluster_analysis := cluster_result
    trend_analysis := proactive_result }

/-! ### Theorems -/

/-- C3: get_threat_level returns HIGH exactly for scores ≥ 7, MEDIUM exactly
for 4 ≤ score < 7, LOW exactly for score < 4, the textual rendering follows
the same cascade, and the mapping is monotone under the ordinal
LOW < MEDIUM < HIGH. -/
theorem C3_threat_level_thresholds (s t : ℚ) :
    (threatLevel s = .HIGH ↔ 7 ≤ s) ∧
    (threatLevel s = .MEDIUM ↔ 4 ≤ s ∧ s < 7) ∧
    (threatLevel s = .LOW ↔ s < 4) ∧
    get_threat_level s false = (threatLevel s).text ∧
    (s ≤ t → (threatLevel s).rank ≤ (threatLevel t).rank) := by
  refine ⟨?_, ?_, ?_, rfl, ?_⟩
  · unfold threatLevel
    split_ifs with h1 h2 <;> simp <;> linarith
  · unfold threatLevel
    split_ifs with h1 h2
    · simp
      intro h
      linarith
    · simp
      exact ⟨h2, not_le.mp h1⟩
    · simp
      intro h
      linarith
  · unfold threatLevel
    split_ifs with h1 h2 <;> simp <;> linarith
  · intro hst
    unfold threatLevel
    split_ifs with h1 h2 h3 h4 h5 h6 <;> simp [ThreatLevel.rank] <;> linarith

/-- C3 witness at concrete scores 3 ≤ 8. -/
theorem C3_threat_level_thresholds_witness :
    (3 : ℚ) ≤ 8 ∧ (threatLevel 3).rank ≤ (threatLevel 8).rank :=
  ⟨by norm_num, (C3_threat_level_thresholds 3 8).2.2.2.2 (by norm_num)⟩

/-- C4 counterexample: a history of 61 records inside the 7-day window (61
e-mails analyzed within a week) makes the medium window total 61, but the
binary64 round-trip (61/7)*7 lands just below 61, so int() truncates the
forecast to 60 — the forecast does not echo the 7-day total. -/
theorem C4_float_counterexample :
    ((analyze_trends [] (List.replicate 61 {}) 0).2).window_medium.total_threats = 61 ∧
    ((analyze_trends [] (List.replicate 61 {}) 0).2).forecasts.next_week = 60 ∧
    (60 : ℤ) ≠ ((61 : ℕ) : ℤ) := by
  have hp : (fun r => decide ((0:ℚ) - DAYS_7 ≤ r.timestamp))
      (mkRecord 0 ({} : TrendInput)) = true :=
    decide_eq_true (by show (0:ℚ) - DAYS_7 ≤ 0; norm_num [DAYS_7])
  have htot : ((analyze_trends [] (List.replicate 61 {}) 0).2).window_medium.total_threats = 61 := by
    show (List.filter (fun r => decide ((0:ℚ) - DAYS_7 ≤ r.timestamp))
      (([] : List ThreatRecord) ++
        List.map (mkRecord 0) (List.replicate 61 ({} : TrendInput)))).length = 61
    rw [List.nil_append, List.map_replicate]
    rw [List.filter_eq_self.mpr (fun a ha => by
      rw [List.eq_of_mem_replicate ha]; exact hp)]
    simp
  refine ⟨htot, ?_, by decide⟩
  show (if ((analyze_trends [] (List.replicate 61 {}) 0).2).window_medium.total_threats ≠ 0
    then pyInt (float_mul (float_div
      ((((analyze_trends [] (List.replicate 61 {}) 0).2).window_medium.total_threats : ℕ) : ℚ) 7) 7)
    else 0) = 60
  rw [htot]
  rw [if_pos (by decide : (61:ℕ) ≠ 0)]
  decide

set_option maxRecDepth 8000 in
/-- C4 (amended): for every state of the trend history whose 7-day-window
total is at most 60, the next-week forecast equals that total; beyond that
the IEEE-754 round-trip (m/7)*7 can fall below m and the truncation drops
the forecast (first at a total of 61). -/
theorem C4_next_week_echoes_small_totals (hist : List ThreatRecord)
    (emails : List TrendInput) (now : ℚ)
    (h : ((analyze_trends hist emails now).2).window_medium.total_threats ≤ 60) :
    ((analyze_trends hist emails now).2).forecasts.next_week =
      (((analyze_trends hist emails now).2).window_medium.total_threats : ℤ) := by
  have key : ∀ m : ℕ, m < 61 →
      pyInt (float_mul (float_div (m : ℚ) 7) 7) = (m : ℤ) := by decide
  show (if ((analyze_trends hist emails now).2).window_medium.total_threats ≠ 0
    then pyInt (float_mul (float_div
      ((((analyze_trends hist emails now).2).window_medium.total_threats : ℕ) : ℚ) 7) 7)
    else 0) =
    (((analyze_trends hist emails now).2).window_medium.total_threats : ℤ)
  set m := ((analyze_trends hist emails now).2).window_medium.total_threats with hm
  by_cases hm0 : m = 0
  · rw [if_neg (by simp [hm0])]
    rw [hm0]
    simp
  · rw [if_pos hm0]
    exact key m (by omega)

/-- C4 witness: the empty history has medium total 0 ≤ 60 and forecast 0. -/
theorem C4_next_week_echoes_small_totals_witness :
    ((analyze_trends [] [] 0).2).window_medium.total_threats ≤ 60 ∧
    ((analyze_trends [] [] 0).2).forecasts.next_week =
      (((analyze_trends [] [] 0).2).window_medium.total_threats : ℤ) :=
  ⟨by decide, C4_next_week_echoes_small_totals [] [] 0 (by decide)⟩

/-- C7: on the all-empty message every rule-based sub-check is total and
returns exactly the documented value: the sender check yields the
suspicious-domain weight and appends the missing-sender indicator, the
other three checks yield 0 and leave state untouched, so the rule-based sum
is exactly the missing-sender contribution. -/
theorem C7_empty_message_rule_scores (ext : Ext) (ind urls : List String) :
    check_sender ext "" ind = (W_sender_suspicious_domain, ind ++ ["Fehlender Absender"]) ∧
    check_subject "" ind = (0, ind) ∧
    check_body ext "" ind urls = (0, ind, urls) ∧
    check_attachments [] ind = (0, ind) ∧
    (check_sender ext "" ind).1 + (check_subject "" ind).1 +
      (check_body ext "" ind urls).1 + (check_attachments [] ind).1 =
      W_sender_suspicious_domain := by
  refine ⟨rfl, rfl, rfl, rfl, ?_⟩
  show W_sender_suspicious_domain + 0 + 0 + 0 = W_sender_suspicious_domain
  ring

/-- C9: the rule-based pass is a pure function of the message: after the
per-call state reset performed at the top of analyze_email, the four
sub-check scores, the indicator sequence and the URL set do not depend on
any previous state. -/
theorem C9_rule_pass_deterministic (ext : Ext) (e : Email)
    (s₁ s₂ : AnalyzerState) :
    ruleBasedPass ext e (resetState s₁) = ruleBasedPass ext e (resetState s₂) := rfl

lemma range_one_eq : List.range 1 = [0] := rfl

lemma isCore_one (c : ℕ → ℕ → Bool) : isCore c 1 0 = false := by
  have h : neighborsCount c 1 0 ≤ 1 := by
    have := List.length_filter_le (fun j => c 0 j) (List.range 1)
    simpa [neighborsCount] using this
  unfold isCore
  simp only [decide_eq_false_iff_not]
  omega

lemma dbscanLabel_one (c : ℕ → ℕ → Bool) : dbscanLabel c 1 0 = -1 := by
  unfold dbscanLabel
  rw [isCore_one]
  simp [range_one_eq, List.find?, isCore_one]

/-- A single point can never be clustered: DBSCAN needs 3 points within
eps, so the lone point is noise and no cluster (hence no new pattern)
exists. -/
lemma new_patterns_singleton (ext : Ext) (hist : List StoredPattern)
    (e : Email) (nowStr : String) :
    ((analyze_email_patterns ext hist [e] nowStr).2).new_patterns = [] := by
  unfold analyze_email_patterns
  by_cases hv : ext.vectorizeOk ([e].map extract_email_features)
  · simp only [List.isEmpty_cons, Bool.false_eq_true, if_false, List.map_cons,
      List.map_nil, List.length_cons, List.length_nil]
    rw [if_pos (by simpa using hv)]
    simp [range_one_eq, dbscanLabel_one, identify_new_patterns]
  · simp only [List.isEmpty_cons, Bool.false_eq_true, if_false, List.map_cons,
      List.map_nil]
    rw [if_neg (by simpa using hv)]
    rfl

/-- C6: analyze_email_patterns on a batch of exactly one message always
reports an empty new_patterns list (the DBSCAN minimum cluster size of 3
cannot be met by a single point; the empty-dict fallback paths report none
either). -/
theorem C6_singleton_batch_no_new_patterns (ext : Ext)
    (hist : List StoredPattern) (e : Email) (nowStr : String) :
    ((analyze_email_patterns ext hist [e] nowStr).2).new_patterns = [] :=
  new_patterns_singleton ext hist e nowStr

lemma setUnion_nodup : ∀ (xs s : List String), s.Nodup → (setUnion s xs).Nodup := by
  intro xs
  induction xs with
  | nil => intro s h; exact h
  | cons x xs ih =>
    intro s h
    simp only [setUnion, List.foldl_cons] at *
    by_cases hx : x ∈ s
    · rw [if_pos hx]
      exact ih s h
    · rw [if_neg hx]
      apply ih
      rw [List.nodup_append]
      refine ⟨h, List.nodup_singleton x, fun a ha hb => ?_⟩
      simp only [List.mem_singleton] at hb
      subst hb
      exact hx ha

lemma check_body_urls_nodup (ext : Ext) (b : String) (ind found : List String)
    (h : found.Nodup) : (check_body ext b ind found).2.2.Nodup := by
  unfold check_body
  by_cases hb : b = ""
  · rw [if_pos hb]
    exact h
  · rw [if_neg hb]
    dsimp only
    by_cases hu : (extract_urls ext b).isEmpty
    · rw [if_pos hu]
      exact h
    · rw [if_neg hu]
      unfold analyze_urls
      exact setUnion_nodup _ _ h

/-- C10: the analyzed_urls list of every verdict has no duplicates: URL
extraction deduplicates and the per-call URL set only ever receives
not-yet-present elements. -/
theorem C10_analyzed_urls_nodup (ext : Ext) (ctx : CtxState)
    (cluHist : List StoredPattern) (trendHist : List ThreatRecord) (now : ℚ)
    (nowStr : String) (st : AnalyzerState) (email_data : Email)
    (user_context : Option UserContext) :
    ((analyze_email ext ctx cluHist trendHist now nowStr st email_data
        user_context).analyzed_urls).Nodup := by
  show ((ruleBasedPass ext email_data (resetState st)).2.2).Nodup
  show ((check_body ext email_data.body
      (check_subject email_data.subject
        (check_sender ext email_data.sender
          (resetState st).threat_indicators).2).2
      (resetState st).urls_found).2.2).Nodup
  exact check_body_urls_nodup ext _ _ _ List.nodup_nil

/-- Two suffixes of the same list are comparable. -/
lemma suffix_total {α : Type} {l₁ l₂ l₃ : List α} (h₁ : l₁ <:+ l₃)
    (h₂ : l₂ <:+ l₃) : l₁ <:+ l₂ ∨ l₂ <:+ l₁ := by
  have key : ∀ a b : ℕ, a ≤ b → List.drop b l₃ <:+ List.drop a l₃ := by
    intro a b hab
    have hb : List.drop b l₃ = List.drop (b - a) (List.drop a l₃) := by
      rw [List.drop_drop]
      congr 1
      omega
    rw [hb]
    exact List.drop_suffix _ _
  have e₁ := List.suffix_iff_eq_drop.mp h₁
  have e₂ := List.suffix_iff_eq_drop.mp h₂
  have n₁ := h₁.length_le
  have n₂ := h₂.length_le
  rcases le_total l₁.length l₂.length with h | h
  · left
    rw [e₁, e₂]
    exact key _ _ (by omega)
  · right
    rw [e₁, e₂]
    exact key _ _ (by omega)

lemma no_suffix_high_medium :
    ∀ e₁ ∈ SUSPICIOUS_EXTENSIONS_high_risk, ∀ e₂ ∈ SUSPICIOUS_EXTENSIONS_medium_risk,
      ¬(e₁.data <:+ e₂.data) ∧ ¬(e₂.data <:+ e₁.data) := by decide

lemma no_suffix_high_low :
    ∀ e₁ ∈ SUSPICIOUS_EXTENSIONS_high_risk, ∀ e₂ ∈ SUSPICIOUS_EXTENSIONS_low_risk,
      ¬(e₁.data <:+ e₂.data) ∧ ¬(e₂.data <:+ e₁.data) := by decide

lemma no_suffix_medium_low :
    ∀ e₁ ∈ SUSPICIOUS_EXTENSIONS_medium_risk, ∀ e₂ ∈ SUSPICIOUS_EXTENSIONS_low_risk,
      ¬(e₁.data <:+ e₂.data) ∧ ¬(e₂.data <:+ e₁.data) := by decide

lemma tier_pair_exclusive {A B : List String}
    (hAB : ∀ e₁ ∈ A, ∀ e₂ ∈ B, ¬(e₁.data <:+ e₂.data) ∧ ¬(e₂.data <:+ e₁.data))
    (att : String) :
    ¬(tierMatches A att = true ∧ tierMatches B att = true) := by
  rintro ⟨hA, hB⟩
  unfold tierMatches at hA hB
  obtain ⟨e₁, he₁, h1⟩ := List.any_eq_true.mp hA
  obtain ⟨e₂, he₂, h2⟩ := List.any_eq_true.mp hB
  have s1 : e₁.data <:+ (pyLower att).data := of_decide_eq_true h1
  have s2 : e₂.data <:+ (pyLower att).data := of_decide_eq_true h2
  rcases suffix_total s1 s2 with h | h
  · exact (hAB e₁ he₁ e₂ he₂).1 h
  · exact (hAB e₁ he₁ e₂ he₂).2 h

/-- The attachment contribution as the spec words it: the weight of the
first (highest-priority) tier whose extension list the name matches. -/
def firstTierWeight (att : String) : ℚ :=
  if tierMatches SUSPICIOUS_EXTENSIONS_high_risk att then W_attachments_high_risk_extension
  else if tierMatches SUSPICIOUS_EXTENSIONS_medium_risk att then W_attachments_medium_risk_extension
  else if tierMatches SUSPICIOUS_EXTENSIONS_low_risk att then W_attachments_low_risk_extension
  else 0

/-- How many extension tiers one attachment name matches. -/
def tierMatchCount (att : String) : ℕ :=
  (if tierMatches SUSPICIOUS_EXTENSIONS_high_risk att then 1 else 0) +
  (if tierMatches SUSPICIOUS_EXTENSIONS_medium_risk att then 1 else 0) +
  (if tierMatches SUSPICIOUS_EXTENSIONS_low_risk att then 1 else 0)

lemma attStep_fst (acc : ℚ × List String) (att : String) :
    (attStep acc att).1 = acc.1 + firstTierWeight att := by
  unfold attStep firstTierWeight
  by_cases h1 : tierMatches SUSPICIOUS_EXTENSIONS_high_risk att = true <;>
    by_cases h2 : tierMatches SUSPICIOUS_EXTENSIONS_medium_risk att = true <;>
    by_cases h3 : tierMatches SUSPICIOUS_EXTENSIONS_low_risk att = true
  · exact absurd ⟨h1, h2⟩ (tier_pair_exclusive no_suffix_high_medium att)
  · exact absurd ⟨h1, h2⟩ (tier_pair_exclusive no_suffix_high_medium att)
  · exact absurd ⟨h1, h3⟩ (tier_pair_exclusive no_suffix_high_low att)
  · simp [h1, h2, h3]
  · exact absurd ⟨h2, h3⟩ (tier_pair_exclusive no_suffix_medium_low att)
  · simp [h1, h2, h3]
  · simp [h1, h2, h3]
  · simp [h1, h2, h3]

lemma foldl_attStep_fst : ∀ (l : List String) (acc : ℚ × List String),
    (l.foldl attStep acc).1 = acc.1 + (l.map firstTierWeight).sum := by
  intro l
  induction l with
  | nil => intro acc; simp
  | cons x xs ih =>
    intro acc
    simp only [List.foldl_cons, List.map_cons, List.sum_cons]
    rw [ih, attStep_fst]
    ring

/-- C5: in _check_attachments every attachment name matches at most one
extension tier (the configured tier lists are mutually suffix-free), so
each attachment contributes exactly the weight of the first tier it
matches, and the total score is the multiple-attachment bonus plus that sum. -/
theorem C5_attachment_single_tier (attachments ind : List String) (a : String) :
    (check_attachments attachments ind).1 =
      (if 1 < attachments.length then W_attachments_multiple_attachments else 0) +
        (attachments.map firstTierWeight).sum ∧
    tierMatchCount a ≤ 1 := by
  constructor
  · unfold check_attachments
    by_cases he : attachments.isEmpty
    · rw [if_pos he]
      rw [List.isEmpty_iff.mp he]
      simp
    · rw [if_neg he]
      dsimp only
      rw [foldl_attStep_fst]
  · unfold tierMatchCount
    by_cases h1 : tierMatches SUSPICIOUS_EXTENSIONS_high_risk a = true <;>
      by_cases h2 : tierMatches SUSPICIOUS_EXTENSIONS_medium_risk a = true <;>
      by_cases h3 : tierMatches SUSPICIOUS_EXTENSIONS_low_risk a = true
    · exact absurd ⟨h1, h2⟩ (tier_pair_exclusive no_suffix_high_medium a)
    · exact absurd ⟨h1, h2⟩ (tier_pair_exclusive no_suffix_high_medium a)
    · exact absurd ⟨h1, h3⟩ (tier_pair_exclusive no_suffix_high_low a)
    · simp [h1, h2, h3]
    · exact absurd ⟨h2, h3⟩ (tier_pair_exclusive no_suffix_medium_low a)
    · simp [h1, h2, h3]
    · simp [h1, h2, h3]
    · simp [h1, h2, h3]

/-- C8: the trend history is append-only — each analyze_trends call returns
the old history extended by the normalized new records and never removes
anything — so after ingesting two records timestamped within the last 24
hours a later analyze_trends([]) still counts both in the short window. -/
theorem C8_history_persists (hist : List ThreatRecord) (e₁ e₂ : TrendInput)
    (rest : List TrendInput) (now₁ now₂ : ℚ)
    (h₁ : now₂ - HOURS_24 ≤ e₁.timestamp.getD now₁)
    (h₂ : now₂ - HOURS_24 ≤ e₂.timestamp.getD now₁) :
    (∀ (h : List ThreatRecord) (es : List TrendInput) (n : ℚ),
        (analyze_trends h es n).1 = h ++ es.map (mkRecord n)) ∧
    2 ≤ ((analyze_trends (analyze_trends hist (e₁ :: e₂ :: rest) now₁).1
          [] now₂).2).window_short.total_threats := by
  refine ⟨fun h es n => rfl, ?_⟩
  have hp₁ : decide (now₂ - HOURS_24 ≤ (mkRecord now₁ e₁).timestamp) = true :=
    decide_eq_true h₁
  have hp₂ : decide (now₂ - HOURS_24 ≤ (mkRecord now₁ e₂).timestamp) = true :=
    decide_eq_true h₂
  show 2 ≤ (List.filter (fun r => decide (now₂ - HOURS_24 ≤ r.timestamp))
      ((hist ++ mkRecord now₁ e₁ :: mkRecord now₁ e₂ :: rest.map (mkRecord now₁)) ++ [])).length
  rw [List.append_nil, List.filter_append]
  simp only [List.filter_cons, hp₁, hp₂, if_true]
  simp only [List.length_append, List.length_cons]
  omega

/-- C8 witness: two default records at time 0, window queried at time 0. -/
theorem C8_history_persists_witness :
    2 ≤ ((analyze_trends (analyze_trends [] [{}, {}] 0).1
        [] 0).2).window_short.total_threats :=
  (C8_history_persists [] {} {} [] 0 0
    (by show (0:ℚ) - HOURS_24 ≤ (0:ℚ); norm_num [HOURS_24])
    (by show (0:ℚ) - HOURS_24 ≤ (0:ℚ); norm_num [HOURS_24])).2

lemma foldl_fst_mono {α : Type} (f : (ℚ × List String) → α → ℚ × List String)
    (hf : ∀ acc a, acc.1 ≤ (f acc a).1) :
    ∀ (l : List α) (acc : ℚ × List String), acc.1 ≤ (l.foldl f acc).1 := by
  intro l
  induction l with
  | nil => intro acc; exact le_refl _
  | cons x xs ih => intro acc; exact le_trans (hf acc x) (ih (f acc x))

lemma keywordScan_fst_mono (txt : String) (kws : List String) (w : ℚ)
    (label : String) (acc : ℚ × List String) (hw : 0 ≤ w) :
    acc.1 ≤ (keywordScan txt kws w label acc).1 := by
  unfold keywordScan
  apply foldl_fst_mono
  intro acc kw
  by_cases h : strContainsSub txt kw = true
  · simp only [h, if_true]
    linarith
  · simp [h]

lemma check_sender_nonneg (ext : Ext) (sender : String) (ind : List String) :
    0 ≤ (check_sender ext sender ind).1 := by
  unfold check_sender
  by_cases hs : sender = ""
  · rw [if_pos hs]
    norm_num [W_sender_suspicious_domain]
  · rw [if_neg hs]
    cases h : ext.reSearchEmail sender with
    | none => norm_num [W_sender_suspicious_domain]
    | some m =>
      dsimp only
      split_ifs <;>
        norm_num [W_sender_suspicious_domain, W_sender_spoofed_display_name]

lemma check_subject_nonneg (subject : String) (ind : List String) :
    0 ≤ (check_subject subject ind).1 := by
  unfold check_subject
  by_cases hs : subject = ""
  · rw [if_pos hs]
  · rw [if_neg hs]
    dsimp only
    have h1 := keywordScan_fst_mono (pyLower subject) SUSPICIOUS_KEYWORDS_high_risk
      W_subject_high_risk_keyword "Hochrisiko-Schlüsselwort im Betreff: " ((0 : ℚ), ind)
      (by norm_num [W_subject_high_risk_keyword])
    have h2 := keywordScan_fst_mono (pyLower subject) SUSPICIOUS_KEYWORDS_medium_risk
      W_subject_medium_risk_keyword "Mittleres Risiko-Schlüsselwort im Betreff: "
      (keywordScan (pyLower subject) SUSPICIOUS_KEYWORDS_high_risk
        W_subject_high_risk_keyword "Hochrisiko-Schlüsselwort im Betreff: " ((0 : ℚ), ind))
      (by norm_num [W_subject_medium_risk_keyword])
    have h3 := keywordScan_fst_mono (pyLower subject) SUSPICIOUS_KEYWORDS_low_risk
      W_subject_low_risk_keyword "Niedrigrisiko-Schlüsselwort im Betreff: "
      (keywordScan (pyLower subject) SUSPICIOUS_KEYWORDS_medium_risk
        W_subject_medium_risk_keyword "Mittleres Risiko-Schlüsselwort im Betreff: "
        (keywordScan (pyLower subject) SUSPICIOUS_KEYWORDS_high_risk
          W_subject_high_risk_keyword "Hochrisiko-Schlüsselwort im Betreff: " ((0 : ℚ), ind)))
      (by norm_num [W_subject_low_risk_keyword])
    have h0 : (((0 : ℚ), ind)).1 = (0 : ℚ) := rfl
    rw [h0] at h1
    linarith

lemma analyze_urls_fst_nonneg (ext : Ext) (urls : List String)
    (ind found : List String) : 0 ≤ (analyze_urls ext urls ind found).1 := by
  unfold analyze_urls
  dsimp only
  have hstep : ∀ (acc : ℚ × List String) (url : String), acc.1 ≤
      ((fun (acc : ℚ × List String) url =>
        let withScheme := if strContainsSub url "://" then url else "http://" ++ url
        let domain := pyLower (ext.netloc withScheme)
        if SUSPICIOUS_TLD.any (fun tld => strContainsSub domain tld) then
          (acc.1 + W_body_suspicious_url, acc.2 ++ ["Verdächtige URL-Domain: " ++ domain])
        else acc) acc url).1 := by
    intro acc url
    dsimp only
    split_ifs <;> norm_num [W_body_suspicious_url]
  refine le_trans ?_ (foldl_fst_mono _ hstep urls _)
  split_ifs <;> norm_num [W_body_multiple_urls]

lemma check_body_nonneg (ext : Ext) (b : String) (ind found : List String) :
    0 ≤ (check_body ext b ind found).1 := by
  unfold check_body
  by_cases hb : b = ""
  · rw [if_pos hb]
  · rw [if_neg hb]
    dsimp only
    have ha : (0 : ℚ) ≤ (keywordScan (pyLower b) SUSPICIOUS_KEYWORDS_low_risk
        W_body_low_risk_keyword "Low Risk-Schlüsselwort im Text: "
        (keywordScan (pyLower b) SUSPICIOUS_KEYWORDS_medium_risk
          W_body_medium_risk_keyword "Medium Risk-Schlüsselwort im Text: "
          (keywordScan (pyLower b) SUSPICIOUS_KEYWORDS_high_risk
            W_body_high_risk_keyword "High Risk-Schlüsselwort im Text: " (0, ind)))).1 := by
      have h1 := keywordScan_fst_mono (pyLower b) SUSPICIOUS_KEYWORDS_high_risk
        W_body_high_risk_keyword "High Risk-Schlüsselwort im Text: " ((0 : ℚ), ind)
        (by norm_num [W_body_high_risk_keyword])
      have h2 := keywordScan_fst_mono (pyLower b) SUSPICIOUS_KEYWORDS_medium_risk
        W_body_medium_risk_keyword "Medium Risk-Schlüsselwort im Text: "
        (keywordScan (pyLower b) SUSPICIOUS_KEYWORDS_high_risk
          W_body_high_risk_keyword "High Risk-Schlüsselwort im Text: " ((0 : ℚ), ind))
        (by norm_num [W_body_medium_risk_keyword])
      have h3 := keywordScan_fst_mono (pyLower b) SUSPICIOUS_KEYWORDS_low_risk
        W_body_low_risk_keyword "Low Risk-Schlüsselwort im Text: "
        (keywordScan (pyLower b) SUSPICIOUS_KEYWORDS_medium_risk
          W_body_medium_risk_keyword "Medium Risk-Schlüsselwort im Text: "
          (keywordScan (pyLower b) SUSPICIOUS_KEYWORDS_high_risk
            W_body_high_risk_keyword "High Risk-Schlüsselwort im Text: " ((0 : ℚ), ind)))
        (by norm_num [W_body_low_risk_keyword])
      have h0 : (((0 : ℚ), ind)).1 = (0 : ℚ) := rfl
      rw [h0] at h1
      linarith
    have hmid : ∀ p : ℚ × List String × List String,
        (0:ℚ) ≤ p.1 → 0 ≤ p.1 := fun _ h => h
    have hurl : (0 : ℚ) ≤ (if (extract_urls ext b).isEmpty then
        ((0:ℚ), (keywordScan (pyLower b) SUSPICIOUS_KEYWORDS_low_risk
          W_body_low_risk_keyword "Low Risk-Schlüsselwort im Text: "
          (keywordScan (pyLower b) SUSPICIOUS_KEYWORDS_medium_risk
            W_body_medium_risk_keyword "Medium Risk-Schlüsselwort im Text: "
            (keywordScan (pyLower b) SUSPICIOUS_KEYWORDS_high_risk
              W_body_high_risk_keyword "High Risk-Schlüsselwort im Text: " (0, ind)))).2, found)
      else analyze_urls ext (extract_urls ext b)
        (keywordScan (pyLower b) SUSPICIOUS_KEYWORDS_low_risk
          W_body_low_risk_keyword "Low Risk-Schlüsselwort im Text: "
          (keywordScan (pyLower b) SUSPICIOUS_KEYWORDS_medium_risk
            W_body_medium_risk_keyword "Medium Risk-Schlüsselwort im Text: "
            (keywordScan (pyLower b) SUSPICIOUS_KEYWORDS_high_risk
              W_body_high_risk_keyword "High Risk-Schlüsselwort im Text: " (0, ind)))).2 found).1 := by
      split_ifs
      · exact le_refl 0
      · exact analyze_urls_fst_nonneg _ _ _ _
    have hurg : (0:ℚ) ≤ (if (["sofort", "dringend", "eilig", "wichtig", "warnung", "jetzt"]).any
        (fun u => strContainsSub (pyLower b) u) then W_body_urgent_language else 0) := by
      split_ifs <;> norm_num [W_body_urgent_language]
    linarith

lemma firstTierWeight_nonneg (att : String) : 0 ≤ firstTierWeight att := by
  unfold firstTierWeight
  split_ifs <;> norm_num [W_attachments_high_risk_extension,
    W_attachments_medium_risk_extension, W_attachments_low_risk_extension]

lemma check_attachments_nonneg (attachments ind : List String) :
    0 ≤ (check_attachments attachments ind).1 := by
  unfold check_attachments
  by_cases he : attachments.isEmpty
  · rw [if_pos he]
  · rw [if_neg he]
    dsimp only
    rw [foldl_attStep_fst]
    have h1 : (0:ℚ) ≤ (if 1 < attachments.length then W_attachments_multiple_attachments else 0) := by
      split_ifs <;> norm_num [W_attachments_multiple_attachments]
    have h2 : (0:ℚ) ≤ (attachments.map firstTierWeight).sum := by
      apply List.sum_nonneg
      intro x hx
      obtain ⟨a, _, rfl⟩ := List.mem_map.mp hx
      exact firstTierWeight_nonneg a
    linarith

lemma context_score_bounds (ext : Ext) (ctx : CtxState) (e : Email)
    (uc : UserContext) :
    0 ≤ (analyze_with_context ext ctx e uc).context_score ∧
      (analyze_with_context ext ctx e uc).context_score ≤ 1 := by
  show 0 ≤ combine_scores _ _ _ ∧ combine_scores _ _ _ ≤ 1
  unfold combine_scores
  constructor
  · exact le_min (by norm_num) (le_max_left 0 _)
  · exact min_le_left _ _

lemma pyRound_nonneg {q : ℚ} (h : 0 ≤ q) : 0 ≤ pyRound q := by
  unfold pyRound
  have hf : (0:ℤ) ≤ ⌊q⌋ := Int.floor_nonneg.mpr h
  split_ifs <;> omega

lemma pyRound_le {q : ℚ} {n : ℤ} (h : q ≤ n) : pyRound q ≤ n := by
  unfold pyRound
  have hfl : ⌊q⌋ ≤ n := by
    have := Int.floor_le_floor h
    simpa using this
  have hfq : (⌊q⌋ : ℚ) ≤ q := Int.floor_le q
  split_ifs with h1 h2 h3
  · exact hfl
  · have hq : ((⌊q⌋ + 1 : ℤ) : ℚ) < (n : ℚ) + 1 := by push_cast; linarith
    have : (⌊q⌋ + 1 : ℤ) < n + 1 := by exact_mod_cast hq
    omega
  · exact hfl
  · have hr : (1:ℚ)/2 ≤ q - ⌊q⌋ := by linarith [not_lt.mp h1]
    have hq : ((⌊q⌋ + 1 : ℤ) : ℚ) < (n : ℚ) + 1 := by push_cast; linarith
    have : (⌊q⌋ + 1 : ℤ) < n + 1 := by exact_mod_cast hq
    omega

lemma round2_bounds {q : ℚ} (h0 : 0 ≤ q) (h10 : q ≤ 10) :
    0 ≤ round2 q ∧ round2 q ≤ 10 := by
  unfold round2
  constructor
  · have := pyRound_nonneg (q := q * 100) (by positivity)
    have hc : (0:ℚ) ≤ (pyRound (q * 100) : ℚ) := by exact_mod_cast this
    linarith
  · have h1000 : q * 100 ≤ ((1000 : ℤ) : ℚ) := by push_cast; linarith
    have := pyRound_le h1000
    have hc : ((pyRound (q * 100) : ℚ)) ≤ 1000 := by exact_mod_cast this
    linarith

/-- The `weights['ml']` entry: 0.2 when confidence exceeds 0.7, else 0.1. -/
def ml_weight (conf : ℚ) : ℚ := if 7/10 < conf then 2/10 else 1/10

/-- The `weights['context']` entry: 0.2 when a user context was supplied. -/
def context_weight (user_context : Option UserContext) : ℚ :=
  if user_context.isSome then 2/10 else 0

/-- The averaged rule-based stage score of one analyze_email call. -/
def rule_avg_of (ext : Ext) (st : AnalyzerState) (email_data : Email) : ℚ :=
  ((ruleBasedPass ext email_data (resetState st)).1.1 +
    (ruleBasedPass ext email_data (resetState st)).1.2.1 +
    (ruleBasedPass ext email_data (resetState st)).1.2.2.1 +
    (ruleBasedPass ext email_data (resetState st)).1.2.2.2) / 4

/-- The context stage score of one analyze_email call (0 without context). -/
def context_score_of (ext : Ext) (ctx : CtxState) (email_data : Email) :
    Option UserContext → ℚ
  | some uc => (analyze_with_context ext ctx email_data uc).context_score
  | none => 0

/-- The cluster stage score of one analyze_email call: 2.0 when a new
pattern was reported, else 0. -/
def cluster_score_of (ext : Ext) (cluHist : List StoredPattern)
    (email_data : Email) (nowStr : String) : ℚ :=
  if !((analyze_email_patterns ext cluHist [email_data] nowStr).2).new_patterns.isEmpty
  then 2 else 0

/-- The fused score actually computed by analyze_email, in closed form:
note the denominator carries the fifth weight entry (proactive, 0.1) even
though no proactive term appears in the numerator. -/
lemma analyze_email_score_eq (ext : Ext) (ctx : CtxState)
    (cluHist : List StoredPattern) (trendHist : List ThreatRecord) (now : ℚ)
    (nowStr : String) (st : AnalyzerState) (email_data : Email)
    (user_context : Option UserContext) :
    (analyze_email ext ctx cluHist trendHist now nowStr st email_data
        user_context).score =
      round2 (min 10
        ((rule_avg_of ext st email_data * (4/10) +
          (ext.mlAnalyze email_data).ml_score *
            ml_weight (ext.mlAnalyze email_data).confidence +
          context_score_of ext ctx email_data user_context *
            context_weight user_context +
          cluster_score_of ext cluHist email_data nowStr * (1/10)) /
         (4/10 + ml_weight (ext.mlAnalyze email_data).confidence +
          context_weight user_context + 1/10 + 1/10) * 10)) := by
  cases user_context <;> rfl

/-- C2: the score field of every verdict lies in [0, 10]: every rule-based
sub-score, the context score (clamped in _combine_scores) and the cluster
contribution are non-negative, so given a non-negative ML model output the
weighted fraction is non-negative, and the final min-clamp (preserved by
the two-decimal rounding) caps it at 10. -/
theorem C2_score_in_range (ext : Ext) (ctx : CtxState)
    (cluHist : List StoredPattern) (trendHist : List ThreatRecord) (now : ℚ)
    (nowStr : String) (st : AnalyzerState) (email_data : Email)
    (user_context : Option UserContext)
    (hml : 0 ≤ (ext.mlAnalyze email_data).ml_score) :
    0 ≤ (analyze_email ext ctx cluHist trendHist now nowStr st email_data
          user_context).score ∧
      (analyze_email ext ctx cluHist trendHist now nowStr st email_data
          user_context).score ≤ 10 := by
  rw [analyze_email_score_eq]
  have hra : 0 ≤ rule_avg_of ext st email_data := by
    unfold rule_avg_of
    have h1 : 0 ≤ (ruleBasedPass ext email_data (resetState st)).1.1 :=
      check_sender_nonneg ext email_data.sender _
    have h2 : 0 ≤ (ruleBasedPass ext email_data (resetState st)).1.2.1 :=
      check_subject_nonneg email_data.subject _
    have h3 : 0 ≤ (ruleBasedPass ext email_data (resetState st)).1.2.2.1 :=
      check_body_nonneg ext email_data.body _ _
    have h4 : 0 ≤ (ruleBasedPass ext email_data (resetState st)).1.2.2.2 :=
      check_attachments_nonneg email_data.attachments _
    apply div_nonneg _ (by norm_num)
    linarith
  have hcs : 0 ≤ context_score_of ext ctx email_data user_context := by
    cases user_context with
    | none => exact le_refl 0
    | some uc => exact (context_score_bounds ext ctx email_data uc).1
  have hwml : (0:ℚ) ≤ ml_weight (ext.mlAnalyze email_data).confidence := by
    unfold ml_weight
    split_ifs <;> norm_num
  have hwctx : (0:ℚ) ≤ context_weight user_context := by
    unfold context_weight
    split_ifs <;> norm_num
  have hcl : (0:ℚ) ≤ cluster_score_of ext cluHist email_data nowStr := by
    unfold cluster_score_of
    split_ifs <;> norm_num
  have hnum : 0 ≤ rule_avg_of ext st email_data * (4/10) +
      (ext.mlAnalyze email_data).ml_score *
        ml_weight (ext.mlAnalyze email_data).confidence +
      context_score_of ext ctx email_data user_context * context_weight user_context +
      cluster_score_of ext cluHist email_data nowStr * (1/10) := by
    have t1 : (0:ℚ) ≤ rule_avg_of ext st email_data * (4/10) :=
      mul_nonneg hra (by norm_num)
    have t2 := mul_nonneg hml hwml
    have t3 := mul_nonneg hcs hwctx
    have t4 : (0:ℚ) ≤ cluster_score_of ext cluHist email_data nowStr * (1/10) :=
      mul_nonneg hcl (by norm_num)
    linarith
  have hden : (0:ℚ) ≤ 4/10 + ml_weight (ext.mlAnalyze email_data).confidence +
      context_weight user_context + 1/10 + 1/10 := by linarith
  have hx0 : (0:ℚ) ≤ min 10 (_ * 10) :=
    le_min (by norm_num) (mul_nonneg (div_nonneg hnum hden) (by norm_num))
  exact round2_bounds hx0 (min_le_left _ _)

/-- C2 witness at the default oracle and all-empty message (ML score 0). -/
theorem C2_score_in_range_witness :
    0 ≤ (({} : Ext).mlAnalyze {}).ml_score ∧
      (0 ≤ (analyze_email {} {} [] [] 0 "t" {} {} none).score ∧
        (analyze_email {} {} [] [] 0 "t" {} {} none).score ≤ 10) :=
  ⟨le_refl 0, C2_score_in_range {} {} [] [] 0 "t" {} {} none (le_refl 0)⟩

/-- The fusion formula exactly as the claim words it: weighted sum divided
by the sum of exactly the weights actually used in the numerator, the trend
stage contributing no weight to numerator or denominator; then ×10 and
clamped at 10.0.  (Spec-side definition, to be compared with the code.) -/
def claimed_fused_score (rule_avg ml_score ml_confidence context_score
    cluster_score : ℚ) (has_context : Bool) : ℚ :=
  min 10 ((rule_avg * (4/10) + ml_score * ml_weight ml_confidence +
      context_score * (if has_context then 2/10 else 0) +
      cluster_score * (1/10)) /
    (4/10 + ml_weight ml_confidence + (if has_context then 2/10 else 0) + 1/10) * 10)

/-- C1 counterexample: for the all-empty message, cold-start oracle and no
user context, the stage scores are rule average 1/2 and 0 everywhere else;
the code divides by 0.7 (including the proactive weight) giving 2.86, while
the claim's formula divides by 0.6 giving 3.33. -/
theorem C1_counterexample :
    (analyze_email {} {} [] [] 0 "t" {} {} none).score = 143/50 ∧
    rule_avg_of {} {} {} = 1/2 ∧
    (({} : Ext).mlAnalyze {}).ml_score = 0 ∧
    (({} : Ext).mlAnalyze {}).confidence = 0 ∧
    context_score_of {} {} {} none = 0 ∧
    cluster_score_of {} [] {} "t" = 0 ∧
    round2 (claimed_fused_score (1/2) 0 0 0 0 false) = 333/100 ∧
    (143/50 : ℚ) ≠ 333/100 := by
  have hra : rule_avg_of {} {} {} = 1/2 := by
    show (W_sender_suspicious_domain + 0 + 0 + 0) / 4 = 1/2
    norm_num [W_sender_suspicious_domain]
  have hcl : cluster_score_of {} [] {} "t" = 0 := by
    unfold cluster_score_of
    rw [new_patterns_singleton]
    rfl
  have hw : ml_weight 0 = 1/10 := by
    unfold ml_weight
    rw [if_neg (by norm_num)]
  refine ⟨?_, hra, rfl, rfl, rfl, hcl, ?_, by norm_num⟩
  · rw [analyze_email_score_eq, hra, hcl]
    have hml : (({} : Ext).mlAnalyze {}) = ({} : MLResult) := rfl
    rw [hml]
    show round2 (min 10 ((1/2 * (4/10) + 0 * ml_weight 0 + 0 * 0 + 0 * (1/10)) /
      (4/10 + ml_weight 0 + 0 + 1/10 + 1/10) * 10)) = 143/50
    rw [hw]
    have hval : ((1:ℚ)/2 * (4/10) + 0 * (1/10) + 0 * 0 + 0 * (1/10)) /
        (4/10 + 1/10 + 0 + 1/10 + 1/10) * 10 = 20/7 := by norm_num
    rw [hval, min_eq_right (by norm_num : (20/7:ℚ) ≤ 10)]
    unfold round2 pyRound
    rw [show (20/7 : ℚ) * 100 = 2000/7 from by norm_num]
    rw [show ⌊(2000/7 : ℚ)⌋ = 285 from by norm_num [Int.floor_eq_iff]]
    rw [if_neg (by push_cast; norm_num : ¬((2000/7 : ℚ) - ((285:ℤ):ℚ) < 1/2))]
    rw [if_pos (by push_cast; norm_num : ((1:ℚ)/2 < (2000/7 : ℚ) - ((285:ℤ):ℚ)))]
    push_cast
    norm_num
  · unfold claimed_fused_score
    rw [hw]
    simp only [Bool.false_eq_true, if_false]
    have hval : ((1:ℚ)/2 * (4/10) + 0 * (1/10) + 0 * 0 + 0 * (1/10)) /
        (4/10 + 1/10 + 0 + 1/10) * 10 = 10/3 := by norm_num
    rw [hval, min_eq_right (by norm_num : (10/3:ℚ) ≤ 10)]
    unfold round2 pyRound
    rw [show (10/3 : ℚ) * 100 = 1000/3 from by norm_num]
    rw [show ⌊(1000/3 : ℚ)⌋ = 333 from by norm_num [Int.floor_eq_iff]]
    rw [if_pos (by push_cast; norm_num : ((1000/3 : ℚ) - ((333:ℤ):ℚ) < 1/2))]
    push_cast
    norm_num

/-- C1 (amended): the verdict score equals the weighted sum of the stage
scores — rule average × 0.4, ML score × (0.2 if confidence > 0.7 else 0.1),
context score × (0.2 if context supplied else 0.0), cluster score × 0.1 —
divided by the sum of all five configured weights, i.e. those four PLUS the
proactive/trend weight 0.1, which enters the denominator although no trend
term enters the numerator; then multiplied by 10, clamped above at 10.0 and
rounded to two decimals in the returned verdict. -/
theorem C1_fused_score_all_weights (ext : Ext) (ctx : CtxState)
    (cluHist : List StoredPattern) (trendHist : List ThreatRecord) (now : ℚ)
    (nowStr : String) (st : AnalyzerState) (email_data : Email)
    (user_context : Option UserContext) :
    (analyze_email ext ctx cluHist trendHist now nowStr st email_data
        user_context).score =
      round2 (min 10
        ((rule_avg_of ext st email_data * (4/10) +
          (ext.mlAnalyze email_data).ml_score *
            ml_weight (ext.mlAnalyze email_data).confidence +
          context_score_of ext ctx email_data user_context *
            context_weight user_context +
          cluster_score_of ext cluHist email_data nowStr * (1/10)) /
         (4/10 + ml_weight (ext.mlAnalyze email_data).confidence +
          context_weight user_context + 1/10 + 1/10) * 10)) :=
  analyze_email_score_eq ext ctx cluHist trendHist now nowStr st email_data
    user_context

end MailAnalyzer
